import Mathlib

/-!
Verification development for the ssh-chat server.

The Rust source is shallowly embedded: each component's in-memory map
(`DashMap` / `HashMap`) is modelled as an association list over `Nat` keys
(UUIDs and IP addresses are opaque identifiers, modelled as `Nat`),
`SystemTime` instants are modelled as `Nat` (seconds), and external effects
(the `governor` token bucket, the MaxMind GeoIP reader, the HTTP-fed threat
sets, the RNG used for UUIDs and colors) enter as explicit parameters or
oracle values.  Fallible operations return `Except String`.
-/

set_option maxHeartbeats 1000000

namespace SshChat

/-! ## Association-list primitives

These model the observable behaviour of the maps used in the source:
`alookup` is `get`, `aremove` is `remove`, `aset` is `insert`
(replace-if-present), `amodify` is `entry(k).and_modify(f).or_insert(d)`,
and `aupdate` is an in-place value update through a `get_mut` guard. -/

def alookup {α : Type} : List (Nat × α) → Nat → Option α
  | [], _ => none
  | (k', v) :: rest, k => if k' = k then some v else alookup rest k

def aremove {α : Type} (k : Nat) (l : List (Nat × α)) : List (Nat × α) :=
  l.filter (fun p => p.1 ≠ k)

def aset {α : Type} (k : Nat) (v : α) : List (Nat × α) → List (Nat × α)
  | [] => [(k, v)]
  | (k', v') :: rest => if k' = k then (k, v) :: rest else (k', v') :: aset k v rest

def amodify {α : Type} (k : Nat) (f : α → α) (dflt : α) :
    List (Nat × α) → List (Nat × α)
  | [] => [(k, dflt)]
  | (k', v') :: rest =>
    if k' = k then (k', f v') :: rest else (k', v') :: amodify k f dflt rest

def aupdate {α : Type} (k : Nat) (v : α) : List (Nat × α) → List (Nat × α)
  | [] => []
  | (k', v') :: rest => if k' = k then (k', v) :: rest else (k', v') :: aupdate k v rest


/-! ## BanManager (`src/abuse/ban.rs`)

`SystemTime` is modelled as `Nat` (seconds); `Duration` likewise.  The map
`BanList.bans : HashMap<IpAddr, BanEntry>` is an association list keyed by
the IP.  Persistence (`save`/`new`) is modelled below by the JSON value the
store writes (`banListToJson`) and reads back (`banListFromJson`). -/

structure BanEntry where
  ip : Nat
  reason : String
  banned_at : Nat
  expires_at : Option Nat
  deriving Repr, DecidableEq

/-- `BanEntry::is_active`: permanent, or `SystemTime::now() < expiry`. -/
def BanEntry.is_active (now : Nat) (e : BanEntry) : Bool :=
  match e.expires_at with
  | none => true
  | some expiry => now < expiry

/-- `BanEntry::is_expired`. -/
def BanEntry.is_expired (now : Nat) (e : BanEntry) : Bool :=
  ! e.is_active now

/-- The in-memory `BanList.bans` map. -/
abbrev BanMap : Type := List (Nat × BanEntry)

/-- `BanManager::ban_permanent` (in-memory mutation; the save step is
modelled separately by `banListToJson`). -/
def banPermanent (now : Nat) (m : BanMap) (ip : Nat) (reason : String) : BanMap :=
  aset ip { ip := ip, reason := reason, banned_at := now, expires_at := none } m

/-- `BanManager::ban_temporary`: `expires_at = now + duration`. -/
def banTemporary (now : Nat) (m : BanMap) (ip : Nat) (duration : Nat)
    (reason : String) : BanMap :=
  aset ip { ip := ip, reason := reason, banned_at := now,
            expires_at := some (now + duration) } m

/-- `BanManager::unban`: returns whether an entry was removed. -/
def unban (m : BanMap) (ip : Nat) : Bool × BanMap :=
  ((alookup m ip).isSome, aremove ip m)

/-- `BanManager::cleanup_expired`: drops exactly the expired entries. -/
def cleanupExpired (now : Nat) (m : BanMap) : BanMap :=
  List.filter (fun p => p.2.is_active now) m

/-- `BanManager::is_banned`. -/
def isBanned (now : Nat) (m : BanMap) (ip : Nat) : Bool :=
  ((alookup m ip).map (fun e => e.is_active now)).getD false

/-- `BanManager::check_ban`: the entry, only if active. -/
def checkBan (now : Nat) (m : BanMap) (ip : Nat) : Option BanEntry :=
  (alookup m ip).filter (fun e => e.is_active now)

/-- `BanManager::get_all_bans`. -/
def getAllBans (now : Nat) (m : BanMap) : List BanEntry :=
  (List.filter (fun p => p.2.is_active now) m).map (fun p => p.2)

/-- `BanManager::ban_count`. -/
def banCount (now : Nat) (m : BanMap) : Nat :=
  (List.filter (fun p => p.2.is_active now) m).length

/-- One operation against the ban store, carrying the instant at which the
source would read `SystemTime::now()`. -/
inductive BanOp where
  | permanent (now ip : Nat) (reason : String)
  | temporary (now ip duration : Nat) (reason : String)
  | unbanOp (ip : Nat)
  | cleanup (now : Nat)
  deriving Repr, DecidableEq

def applyBanOp (m : BanMap) : BanOp → BanMap
  | .permanent now ip reason => banPermanent now m ip reason
  | .temporary now ip dur reason => banTemporary now m ip dur reason
  | .unbanOp ip => (unban m ip).2
  | .cleanup now => cleanupExpired now m

/-- The ban store reached from the empty store by a sequence of operations. -/
def runBanOps (ops : List BanOp) : BanMap :=
  List.foldl applyBanOp ([] : BanMap) ops

/-! ### Persistence (`BanManager::save` / `BanManager::new`)

`save` writes `{"bans": {ip: entry}}`; `#[serde(skip_serializing_if =
"Option::is_none")]` omits `expires_at` for permanent bans, and serde fills
a missing `Option` field with `None` on load, so the JSON entry is captured
by a record with an optional `expires` field.  `BanManager::new` loads the
file (missing file means the empty store) and runs `cleanup_expired`. -/

structure BanEntryJson where
  ip : Nat
  reason : String
  banned_at : Nat
  /-- `none` means the `expires_at` field is absent from the JSON object. -/
  expires_field : Option Nat
  deriving Repr, DecidableEq

def banEntryToJson (e : BanEntry) : BanEntryJson :=
  { ip := e.ip, reason := e.reason, banned_at := e.banned_at,
    expires_field := e.expires_at }

def banEntryFromJson (j : BanEntryJson) : BanEntry :=
  { ip := j.ip, reason := j.reason, banned_at := j.banned_at,
    expires_at := j.expires_field }

/-- `BanManager::save`: the JSON object written to disk. -/
def banListToJson (m : BanMap) : List (Nat × BanEntryJson) :=
  m.map (fun p => (p.1, banEntryToJson p.2))

def banListFromJson (j : List (Nat × BanEntryJson)) : BanMap :=
  j.map (fun p => (p.1, banEntryFromJson p.2))

/-- `BanManager::new` against an existing ban file: load, then
`cleanup_expired` once at startup. -/
def banManagerNew (now : Nat) (j : List (Nat × BanEntryJson)) : BanMap :=
  cleanupExpired now (banListFromJson j)

/-- The active entries of a store, as compared by claim C6. -/
def activeBans (now : Nat) (m : BanMap) : BanMap :=
  List.filter (fun p => p.2.is_active now) m

/-! ## RateLimiter (`src/abuse/rate_limit.rs`)

Client UUIDs and IPs are `Nat`.  The `governor` crate's per-client token
bucket is an external library; the bucket map keeps only the fact that a
bucket exists (`Unit` value), and `check_rate_limit` takes the governor's
accept/reject verdict as an oracle.  Timestamps are `Nat` seconds. -/

structure FloodConfig where
  window_seconds : Nat
  max_messages_in_window : Nat
  max_connections_per_ip : Nat
  deriving Repr, DecidableEq

structure RLState where
  /-- `client_limiters`: which clients own a token bucket. -/
  clientLimiters : List (Nat × Unit)
  /-- `ip_connections`: per-IP list of registered client ids. -/
  ipConnections : List (Nat × List Nat)
  /-- `message_history`: per-client timestamps of accepted messages. -/
  messageHistory : List (Nat × List Nat)
  deriving Repr, DecidableEq

def RLState.init : RLState := ⟨[], [], []⟩

/-- Message shown by `register_client` when the per-IP cap is hit. -/
def tooManyConnectionsMsg (ip maxConn : Nat) : String :=
  "Too many connections from " ++ toString ip ++ " (max " ++ toString maxConn ++ ")"

/-- `RateLimiter::register_client`.  The first `entry(ip).or_default()`
materialises an empty entry even when the call then fails. -/
def registerClient (cfg : FloodConfig) (st : RLState) (c ip : Nat) :
    Except String Unit × RLState :=
  let conns0 := amodify ip id [] st.ipConnections
  let n := ((alookup conns0 ip).getD []).length
  if cfg.max_connections_per_ip ≤ n then
    (.error (tooManyConnectionsMsg ip cfg.max_connections_per_ip),
     { st with ipConnections := conns0 })
  else
    (.ok (),
     { clientLimiters := aset c () st.clientLimiters,
       ipConnections := amodify ip (fun l => l ++ [c]) [c] conns0,
       messageHistory := aset c [] st.messageHistory })

/-- `RateLimiter::unregister_client`. -/
def unregisterClient (st : RLState) (c ip : Nat) : RLState :=
  let conns :=
    match alookup st.ipConnections ip with
    | none => st.ipConnections
    | some l =>
      let l' := l.filter (fun id => id ≠ c)
      if l' = [] then aremove ip st.ipConnections
      else aupdate ip l' st.ipConnections
  { clientLimiters := aremove c st.clientLimiters,
    ipConnections := conns,
    messageHistory := aremove c st.messageHistory }

/-- `RateLimiter::check_rate_limit`.  `governor` is the external token
bucket's verdict for this call (true = a token was available). -/
def checkRateLimit (governor : Bool) (st : RLState) (c : Nat) : Except String Unit :=
  match alookup st.clientLimiters c with
  | some _ => if governor then .ok () else .error "Rate limit exceeded"
  | none => .error "Client not registered"

/-- `now.duration_since(t).unwrap_or(Duration::ZERO)`. -/
def durationSince (now t : Nat) : Nat :=
  if t ≤ now then now - t else 0

/-- The front-dropping loop of `check_flood`: pop timestamps strictly older
than the window, stop at the first recent one. -/
def dropExpired (now window : Nat) : List Nat → List Nat
  | [] => []
  | t :: rest =>
    if window < durationSince now t then dropExpired now window rest else t :: rest

/-- Error message of `check_flood` (`history.len()` is the post-drop length). -/
def floodMsg (len window : Nat) : String :=
  "Flood detected: " ++ toString len ++ " messages in " ++ toString window ++ " seconds"

/-- `RateLimiter::check_flood`. -/
def checkFlood (cfg : FloodConfig) (now : Nat) (st : RLState) (c : Nat) :
    Except String Unit × RLState :=
  match alookup st.messageHistory c with
  | none => (.error "Client not registered", st)
  | some h =>
    let h1 := dropExpired now cfg.window_seconds h
    if cfg.max_messages_in_window ≤ h1.length then
      (.error (floodMsg h1.length cfg.window_seconds),
       { st with messageHistory := aupdate c h1 st.messageHistory })
    else
      (.ok (),
       { st with messageHistory := aupdate c (h1 ++ [now]) st.messageHistory })

/-- `RateLimiter::get_connection_count`. -/
def getConnectionCount (st : RLState) (ip : Nat) : Nat :=
  ((alookup st.ipConnections ip).map List.length).getD 0

/-- A run of `check_flood` calls for one client at the given instants;
stops at the first rejection.  `true` means every call succeeded. -/
def floodCalls (cfg : FloodConfig) (c : Nat) : RLState → List Nat → Bool × RLState
  | st, [] => (true, st)
  | st, t :: ts =>
    match checkFlood cfg t st c with
    | (.ok _, st') => floodCalls cfg c st' ts
    | (.error _, st') => (false, st')

/-- Registration traffic against one RateLimiter (`check_*` reads do not
change the connection map, so they are omitted from reachability). -/
inductive RLOp where
  | reg (c ip : Nat)
  | unreg (c ip : Nat)
  deriving Repr, DecidableEq

def applyRLOp (cfg : FloodConfig) (st : RLState) : RLOp → RLState
  | .reg c ip => (registerClient cfg st c ip).2
  | .unreg c ip => unregisterClient st c ip

def runRLOps (cfg : FloodConfig) (ops : List RLOp) : RLState :=
  List.foldl (applyRLOp cfg) RLState.init ops

/-- The RateLimiter states reachable from a fresh limiter by registration
traffic. -/
inductive RLReachable (cfg : FloodConfig) : RLState → Prop where
  | init : RLReachable cfg RLState.init
  | step (st : RLState) (op : RLOp) :
      RLReachable cfg st → RLReachable cfg (applyRLOp cfg st op)

/-! ## AutoBahn (`src/abuse/autobahn.rs`)

`connection_delay_multiplier` is an `f64`; it is modelled as `ℚ` with exact
arithmetic (for the configurations of interest, powers of two times small
integers, the `f64` computation is exact).  `powi` takes an `i32`, so the
source computes `(attempts - 1) as i32`, a wrapping cast captured by
`toI32`.  The `tokio` sleeps are timing effects with no bearing on the
returned value and are not modelled. -/

structure AutoBahnConfig where
  enabled : Bool
  delay_on_first_violation : Nat
  delay_on_second_violation : Nat
  delay_on_third_violation : Nat
  delay_on_fourth_violation : Nat
  challenge_after_violations : Nat
  challenge_timeout_seconds : Nat
  connection_delay_base_ms : Nat
  connection_delay_multiplier : ℚ
  connection_delay_max_ms : Nat
  deriving Repr, DecidableEq

structure ViolationRecord where
  count : Nat
  last_violation : Nat
  connection_attempts : Nat
  last_connection_attempt : Nat
  deriving Repr, DecidableEq

abbrev AutoBahnState : Type := List (Nat × ViolationRecord)

/-- `u8::saturating_add(1)`. -/
def satAddU8 (n : Nat) : Nat := min (n + 1) 255

/-- `u32::saturating_add(1)`. -/
def satAddU32 (n : Nat) : Nat := min (n + 1) 4294967295

/-- `AutoBahn::record_connection_attempt`. -/
def recordConnectionAttempt (enabled : Bool) (now : Nat) (st : AutoBahnState)
    (ip : Nat) : AutoBahnState :=
  if !enabled then st
  else
    amodify ip
      (fun r => { r with connection_attempts := satAddU32 r.connection_attempts,
                         last_connection_attempt := now })
      { count := 0, last_violation := now, connection_attempts := 1,
        last_connection_attempt := now }
      st

/-- `AutoBahn::record_violation`. -/
def recordViolation (enabled : Bool) (now : Nat) (st : AutoBahnState)
    (ip : Nat) : AutoBahnState :=
  if !enabled then st
  else
    amodify ip
      (fun r => { r with count := satAddU8 r.count, last_violation := now })
      { count := 1, last_violation := now, connection_attempts := 0,
        last_connection_attempt := now }
      st

/-- The wrapping `as i32` cast applied to `attempts - 1` before `powi`. -/
def toI32 (n : Nat) : Int :=
  if n % 4294967296 < 2147483648 then ((n % 4294967296 : Nat) : Int)
  else ((n % 4294967296 : Nat) : Int) - 4294967296

/-- `AutoBahn::calculate_connection_delay`: `0` for `attempts <= 1`, else
`min(base * multiplier.powi((attempts - 1) as i32), max) as u64`. -/
def calculateConnectionDelay (cfg : AutoBahnConfig) (attempts : Nat) : Nat :=
  if attempts ≤ 1 then 0
  else
    (⌊min ((cfg.connection_delay_base_ms : ℚ) *
            cfg.connection_delay_multiplier ^ (toI32 (attempts - 1)))
        ((cfg.connection_delay_max_ms : ℚ))⌋).toNat

/-- Challenge failure message returned by `require_challenge` (the current
design always times the challenge out and fails). -/
def challengeRequiredMsg (violationCount : Nat) : String :=
  "AutoBahn challenge required (violations: " ++ toString violationCount ++ ")"

/-- `AutoBahn::check_connection`: records the attempt, and (after the
sleeps, which carry no state) fails exactly when the violation count has
reached `challenge_after_violations`. -/
def checkConnection (cfg : AutoBahnConfig) (now : Nat) (st : AutoBahnState)
    (ip : Nat) : Except String Unit × AutoBahnState :=
  if !cfg.enabled then (.ok (), st)
  else
    let st1 := recordConnectionAttempt cfg.enabled now st ip
    match alookup st1 ip with
    | some r =>
      if cfg.challenge_after_violations ≤ r.count then
        (.error (challengeRequiredMsg r.count), st1)
      else (.ok (), st1)
    | none => (.ok (), st1)

/-! ## Admission (`SshServer::run`, `src/ssh/server.rs` lines 66-131)

The accept loop runs, in order: `check_ban` on the ban store, the GeoIP
filter, then the threat list; the first failure writes a textual reason to
the raw TCP stream and shuts it down, and only otherwise is the stream
passed to `russh::server::run_stream`.  The GeoIP lookup (MaxMind reader)
and the threat sets (HTTP-fed) are external inputs here, so those two
checks enter as their `Result` values; the ban check is the real
`checkBan`.  No other check appears in the loop. -/

inductive AdmissionResult where
  | rejected (msg : String)
  | handed
  deriving Repr, DecidableEq

/-- The rejection reason built from an active ban entry. -/
def banRejectReason (e : BanEntry) : String :=
  match e.expires_at with
  | some expiry => "Banned until " ++ toString expiry ++ ": " ++ e.reason
  | none => "Permanently banned: " ++ e.reason

def rejectionLine (reason : String) : String :=
  "Connection rejected: " ++ reason

/-- One iteration of the accept loop, from `accept` up to `run_stream`. -/
def admission (now : Nat) (bans : BanMap) (geo threat : Except String Unit)
    (ip : Nat) : AdmissionResult :=
  match checkBan now bans ip with
  | some entry => .rejected (rejectionLine (banRejectReason entry))
  | none =>
    match geo with
    | .error e => .rejected (rejectionLine e)
    | .ok _ =>
      match threat with
      | .error e => .rejected (rejectionLine e)
      | .ok _ => .handed

/-! ## Hub / ChatServer (`src/chat/server.rs`) and the message model
(`src/chat/message.rs`)

`chat_tx` (the fanout broadcast channel, carrying `MessageEvent`) and
`system_tx` (the operator log channel, whose Rust element type is
`SystemLog`, not `MessageEvent`) are modelled as the lists of values sent
on them, in order.  `Uuid::new_v4()` and `Color::random()` are RNG
outputs, supplied as operation parameters. -/

inductive Color where
  | red | green | yellow | blue | magenta | cyan
  deriving Repr, DecidableEq

/-- `Color::to_ansi`: the six-color palette 31..36. -/
def Color.to_ansi : Color → Nat
  | .red => 31
  | .green => 32
  | .yellow => 33
  | .blue => 34
  | .magenta => 35
  | .cyan => 36

inductive NoticeKind where
  | joined | left
  deriving Repr, DecidableEq

inductive LogLevel where
  | info | warning | error
  deriving Repr, DecidableEq

structure ChatMessage where
  timestamp : Nat
  nickname : String
  text : String
  color : Color
  ip : Nat
  deriving Repr, DecidableEq

structure NoticeMessage where
  timestamp : Nat
  kind : NoticeKind
  nickname : String
  ip : Nat
  deriving Repr, DecidableEq

inductive AdminAction where
  | ban (ip : Nat) (reason : String)
  | tempBan (ip : Nat) (duration : Nat)
  | unbanAct (ip : Nat)
  | kick (nickname : String) (ip : Nat)
  deriving Repr, DecidableEq

structure SystemLog where
  timestamp : Nat
  level : LogLevel
  message : String
  ip : Option Nat
  action : Option AdminAction
  deriving Repr, DecidableEq

inductive MessageEvent where
  | chat (m : ChatMessage)
  | notice (n : NoticeMessage)
  | system (s : SystemLog)
  deriving Repr, DecidableEq

structure Client where
  id : Nat
  nickname : String
  ip : Nat
  color : Color
  connected_at : Nat
  deriving Repr, DecidableEq

structure Stats where
  total_messages : Nat
  total_connections : Nat
  total_kicks : Nat
  total_bans : Nat
  deriving Repr, DecidableEq

inductive BanDuration where
  | permanent
  | minutes (m : Nat)
  | hours (h : Nat)
  | days (d : Nat)
  deriving Repr, DecidableEq

/-- `BanDuration::to_duration` (seconds). -/
def BanDuration.to_duration : BanDuration → Option Nat
  | .permanent => none
  | .minutes m => some (m * 60)
  | .hours h => some (h * 3600)
  | .days d => some (d * 86400)

structure HubState where
  clients : List (Nat × Client)
  stats : Stats
  banMap : BanMap
  /-- Values sent on the fanout broadcast channel `chat_tx`, in order. -/
  fanout : List MessageEvent
  /-- Values sent on the operator log channel `system_tx`, in order.  Its
  element type is `SystemLog`: the Rust channel cannot carry chat events. -/
  opLog : List SystemLog
  deriving Repr, DecidableEq

def HubState.init : HubState :=
  { clients := [], stats := ⟨0, 0, 0, 0⟩, banMap := [], fanout := [], opLog := [] }

/-- `ChatServer::add_client`.  `freshId` and `color` stand for
`Uuid::new_v4()` and `Color::random()`. -/
def addClient (maxClients : Nat) (freshId : Nat) (color : Color) (now : Nat)
    (st : HubState) (nickname : String) (ip : Nat) :
    Except String (Nat × Client) × HubState :=
  if maxClients ≤ st.clients.length then (.error "Server full", st)
  else if st.clients.any (fun p => p.2.nickname = nickname) then
    (.error "Nickname already taken", st)
  else
    let client : Client :=
      { id := freshId, nickname := nickname, ip := ip, color := color,
        connected_at := now }
    (.ok (freshId, client),
     { st with
       clients := aset freshId client st.clients,
       stats := { st.stats with total_connections := st.stats.total_connections + 1 },
       fanout := st.fanout ++
         [.notice { timestamp := now, kind := .joined, nickname := nickname, ip := ip }],
       opLog := st.opLog ++
         [{ timestamp := now, level := .info,
            message := nickname ++ " joined from " ++ toString ip,
            ip := some ip, action := none }] })

/-- `ChatServer::remove_client`. -/
def removeClient (now : Nat) (st : HubState) (clientId : Nat) : HubState :=
  match alookup st.clients clientId with
  | none => st
  | some c =>
    { st with
      clients := aremove clientId st.clients,
      fanout := st.fanout ++
        [.notice { timestamp := now, kind := .left, nickname := c.nickname, ip := c.ip }],
      opLog := st.opLog ++
        [{ timestamp := now, level := .info, message := c.nickname ++ " left",
           ip := some c.ip, action := none }] }

/-- `ChatServer::broadcast_chat`. -/
def broadcastChat (now : Nat) (st : HubState) (clientId : Nat) (text : String) :
    Except String Unit × HubState :=
  match alookup st.clients clientId with
  | none => (.error "Client not found", st)
  | some c =>
    (.ok (),
     { st with
       fanout := st.fanout ++
         [.chat { timestamp := now, nickname := c.nickname, text := text,
                  color := c.color, ip := c.ip }],
       stats := { st.stats with total_messages := st.stats.total_messages + 1 } })

/-- `ChatServer::log_system`. -/
def logSystem (now : Nat) (st : HubState) (level : LogLevel) (message : String)
    (ip : Option Nat) : HubState :=
  { st with
    opLog := st.opLog ++
      [{ timestamp := now, level := level, message := message, ip := ip,
         action := none }] }

/-! Target strings given to `kick`/`ban` are parsed by external `FromStr`
instances (`Uuid::parse_str`, `IpAddr::from_str`); a target is modelled as
its raw text together with the (unique) parse outcome.  A string parsing
as a UUID cannot also parse as an IP, so one constructor per outcome. -/

inductive TargetKind where
  | uuid (id : Nat)
  | ipAddr (ip : Nat)
  | plain
  deriving Repr, DecidableEq

structure Target where
  raw : String
  kind : TargetKind
  deriving Repr, DecidableEq

def getClient (st : HubState) (clientId : Nat) : Option Client :=
  alookup st.clients clientId

def getClientByNickname (st : HubState) (nickname : String) : Option Client :=
  ((st.clients.find? (fun p => p.2.nickname = nickname)).map (fun p => p.2))

/-- `ChatServer::resolve_target`: UUID lookup first; a UUID-shaped target
with no live client falls through to the nickname lookup (its raw text
cannot parse as an IP); an IP-shaped target matches a live client's IP or
fails without trying nicknames. -/
def resolveTarget (st : HubState) (t : Target) : Except String Client :=
  match t.kind with
  | .uuid id =>
    match getClient st id with
    | some c => .ok c
    | none =>
      match getClientByNickname st t.raw with
      | some c => .ok c
      | none => .error ("No client found matching '" ++ t.raw ++ "'")
  | .ipAddr ip =>
    match (st.clients.find? (fun p => p.2.ip = ip)).map (fun p => p.2) with
    | some c => .ok c
    | none => .error ("No client connected from IP " ++ toString ip)
  | .plain =>
    match getClientByNickname st t.raw with
    | some c => .ok c
    | none => .error ("No client found matching '" ++ t.raw ++ "'")

/-- `ChatServer::resolve_target_to_ip`: a bare IP is accepted even with no
live client. -/
def resolveTargetToIp (st : HubState) (t : Target) : Except String Nat :=
  match t.kind with
  | .ipAddr ip => .ok ip
  | _ => (resolveTarget st t).map (fun c => c.ip)

/-- `ChatServer::kick_client`. -/
def kickClient (now : Nat) (st : HubState) (t : Target) (reason : Option String) :
    Except String String × HubState :=
  match resolveTarget st t with
  | .error e => (.error e, st)
  | .ok c =>
    let st1 := removeClient now st c.id
    let st2 :=
      { st1 with stats := { st1.stats with total_kicks := st1.stats.total_kicks + 1 } }
    let reasonStr := reason.getD "No reason provided"
    let st3 :=
      { st2 with opLog := st2.opLog ++
        [{ timestamp := now, level := .warning,
           message := "Kicked " ++ c.nickname ++ " (" ++ toString c.ip ++ "): " ++ reasonStr,
           ip := some c.ip, action := some (.kick c.nickname c.ip) }] }
    (.ok ("Kicked " ++ c.nickname ++ " (" ++ toString c.ip ++ ")"), st3)

/-- The success string `ban_client` returns. -/
def banResultMsg (ip : Nat) (duration : BanDuration) : String :=
  match duration with
  | .permanent => "Permanently banned " ++ toString ip
  | _ => "Temporarily banned " ++ toString ip

/-- `ChatServer::ban_client`: resolve to IP; write the ban (permanent or
temporary) and its operator log line; bump `total_bans`; then remove every
live client whose IP matches. -/
def banClient (now : Nat) (st : HubState) (t : Target) (duration : BanDuration)
    (reason : Option String) : Except String String × HubState :=
  match resolveTargetToIp st t with
  | .error e => (.error e, st)
  | .ok ip =>
    let reasonStr := reason.getD "No reason provided"
    let st1 : HubState :=
      match duration.to_duration with
      | none =>
        { st with
          banMap := banPermanent now st.banMap ip reasonStr,
          opLog := st.opLog ++
            [{ timestamp := now, level := .error,
               message := "Banned " ++ toString ip ++ " permanently: " ++ reasonStr,
               ip := some ip, action := some (.ban ip reasonStr) }] }
      | some dur =>
        let duration_str :=
          match duration with
          | .minutes m => toString m ++ "m"
          | .hours h => toString h ++ "h"
          | .days d => toString d ++ "d"
          | .permanent => ""
        { st with
          banMap := banTemporary now st.banMap ip dur reasonStr,
          opLog := st.opLog ++
            [{ timestamp := now, level := .warning,
               message := "Temp banned " ++ toString ip ++ " for " ++ duration_str ++
                 ": " ++ reasonStr,
               ip := some ip, action := some (.tempBan ip dur) }] }
    let st2 :=
      { st1 with stats := { st1.stats with total_bans := st1.stats.total_bans + 1 } }
    let kickIds := (st2.clients.filter (fun p => p.2.ip = ip)).map (fun p => p.1)
    let st3 := kickIds.foldl (fun s k => removeClient now s k) st2
    (.ok (banResultMsg ip duration), st3)

/-- `ChatServer::unban_client`: `ipParse` is the result of parsing the
given string as an IP. -/
def unbanClient (now : Nat) (st : HubState) (ipParse : Option Nat) :
    Except String String × HubState :=
  match ipParse with
  | none => (.error "Invalid IP address", st)
  | some ip =>
    let (removed, m') := unban st.banMap ip
    if removed then
      (.ok ("Unbanned " ++ toString ip),
       { st with
         banMap := m',
         opLog := st.opLog ++
           [{ timestamp := now, level := .info,
              message := "Unbanned " ++ toString ip, ip := some ip,
              action := some (.unbanAct ip) }] })
    else (.error ("IP " ++ toString ip ++ " is not banned"), { st with banMap := m' })

/-- One Hub operation, carrying the RNG outputs and timestamps the source
would draw. -/
inductive HubOp where
  | add (freshId : Nat) (color : Color) (now : Nat) (nickname : String) (ip : Nat)
  | remove (now : Nat) (id : Nat)
  | chat (now : Nat) (id : Nat) (text : String)
  | logSys (now : Nat) (level : LogLevel) (msg : String) (ip : Option Nat)
  | kick (now : Nat) (t : Target) (reason : Option String)
  | ban (now : Nat) (t : Target) (duration : BanDuration) (reason : Option String)
  | unbanOp (now : Nat) (ipParse : Option Nat)
  deriving Repr, DecidableEq

def applyHubOp (maxClients : Nat) (st : HubState) : HubOp → HubState
  | .add freshId color now nickname ip =>
    (addClient maxClients freshId color now st nickname ip).2
  | .remove now id => removeClient now st id
  | .chat now id text => (broadcastChat now st id text).2
  | .logSys now level msg ip => logSystem now st level msg ip
  | .kick now t reason => (kickClient now st t reason).2
  | .ban now t duration reason => (banClient now st t duration reason).2
  | .unbanOp now ipParse => (unbanClient now st ipParse).2

def runHub (maxClients : Nat) (ops : List HubOp) : HubState :=
  List.foldl (applyHubOp maxClients) HubState.init ops

/-- The formatting step of the per-session writer task
(`SshHandler::spawn_message_listener`): `Chat` and `Notice` render to an
ANSI line; `System` hits the `continue` arm — nothing is written. -/
def formatEvent : MessageEvent → Option String
  | .chat m =>
    some ("\r\n\x1b[" ++ toString m.color.to_ansi ++ "m[" ++ m.nickname ++
      "]\x1b[0m " ++ m.text ++ "\r\n")
  | .notice n =>
    some ("\r\n\x1b[90m* " ++ n.nickname ++ " " ++
      (match n.kind with | .joined => "joined" | .left => "left") ++ "\x1b[0m\r\n")
  | .system _ => none

/-- Chat and notice events are the SSH-client-visible ones. -/
def isClientVisible : MessageEvent → Bool
  | .chat _ => true
  | .notice _ => true
  | .system _ => false

/-- The configuration of the source's `autobahn` tests and of the spec's
scenario E: base 100 ms, multiplier 2.0, cap 60000 ms. -/
def exampleAutoBahnConfig : AutoBahnConfig :=
  { enabled := true,
    delay_on_first_violation := 100, delay_on_second_violation := 500,
    delay_on_third_violation := 2000, delay_on_fourth_violation := 5000,
    challenge_after_violations := 3, challenge_timeout_seconds := 30,
    connection_delay_base_ms := 100, connection_delay_multiplier := 2,
    connection_delay_max_ms := 60000 }

/-- An AutoBahn state in which IP 7 has accumulated 3 violations, enough to
trigger the (always-failing) challenge in `check_connection`. -/
def c1AutoBahnState : AutoBahnState :=
  [(7, { count := 3, last_violation := 0, connection_attempts := 1,
         last_connection_attempt := 0 })]

/-- No two entries of the registry share a nickname (case-sensitive). -/
def NickUniqueL (l : List (Nat × Client)) : Prop :=
  l.Pairwise (fun a b => a.2.nickname ≠ b.2.nickname)

/-- The Hub's registry holds no two live clients with the same nickname. -/
def NickUnique (st : HubState) : Prop :=
  NickUniqueL st.clients

/-- Distinct keys, an invariant of every `DashMap`-backed map. -/
def KeysDistinct {α : Type} (l : List (Nat × α)) : Prop :=
  l.Pairwise (fun a b => a.1 ≠ b.1)

/-! ## Lookup lemmas for the association-list primitives -/

@[simp] theorem alookup_nil {α : Type} (k : Nat) : alookup ([] : List (Nat × α)) k = none := rfl

theorem alookup_cons {α : Type} (k' : Nat) (v : α) (rest : List (Nat × α)) (k : Nat) :
    alookup ((k', v) :: rest) k = if k' = k then some v else alookup rest k := rfl

@[simp] theorem alookup_aset_self {α : Type} (k : Nat) (v : α) (l : List (Nat × α)) :
    alookup (aset k v l) k = some v := by
  induction l with
  | nil => simp [aset, alookup]
  | cons p rest ih =>
    obtain ⟨k', v'⟩ := p
    by_cases h : k' = k <;> simp [aset, alookup, h, ih]

@[simp] theorem alookup_aset_ne {α : Type} (k k₂ : Nat) (v : α) (l : List (Nat × α))
    (h : k ≠ k₂) : alookup (aset k v l) k₂ = alookup l k₂ := by
  induction l with
  | nil => simp [aset, alookup, h]
  | cons p rest ih =>
    obtain ⟨k', v'⟩ := p
    by_cases h' : k' = k
    · subst h'; simp [aset, alookup, h]
    · simp [aset, alookup, h']
      by_cases h2 : k' = k₂ <;> simp [h2, ih]

@[simp] theorem alookup_aremove_self {α : Type} (k : Nat) (l : List (Nat × α)) :
    alookup (aremove k l) k = none := by
  induction l with
  | nil => simp [aremove, alookup]
  | cons p rest ih =>
    obtain ⟨k', v'⟩ := p
    by_cases h : k' = k
    · simpa [aremove, List.filter, h] using ih
    · simpa [aremove, List.filter, h, alookup] using ih

@[simp] theorem alookup_aremove_ne {α : Type} (k k₂ : Nat) (l : List (Nat × α))
    (h : k ≠ k₂) : alookup (aremove k l) k₂ = alookup l k₂ := by
  induction l with
  | nil => simp [aremove]
  | cons p rest ih =>
    obtain ⟨k', v'⟩ := p
    by_cases h' : k' = k
    · simpa [aremove, List.filter, alookup, h', h] using ih
    · by_cases h2 : k' = k₂
      · subst h2
        simp [aremove, List.filter, alookup, h']
      · simpa [aremove, List.filter, alookup, h', h2] using ih

@[simp] theorem alookup_amodify_self {α : Type} (k : Nat) (f : α → α) (d : α)
    (l : List (Nat × α)) :
    alookup (amodify k f d l) k =
      some (match alookup l k with | some v => f v | none => d) := by
  induction l with
  | nil => simp [amodify, alookup]
  | cons p rest ih =>
    obtain ⟨k', v'⟩ := p
    by_cases h : k' = k <;> simp [amodify, alookup, h, ih]

@[simp] theorem alookup_amodify_ne {α : Type} (k k₂ : Nat) (f : α → α) (d : α)
    (l : List (Nat × α)) (h : k ≠ k₂) :
    alookup (amodify k f d l) k₂ = alookup l k₂ := by
  induction l with
  | nil => simp [amodify, alookup, h]
  | cons p rest ih =>
    obtain ⟨k', v'⟩ := p
    by_cases h' : k' = k
    · subst h'; simp [amodify, alookup, h]
    · by_cases h2 : k' = k₂
      · subst h2; simp [amodify, alookup, h']
      · simp [amodify, alookup, h', h2, ih]

@[simp] theorem alookup_aupdate_self {α : Type} (k : Nat) (v : α) (l : List (Nat × α)) :
    alookup (aupdate k v l) k = if (alookup l k).isSome then some v else none := by
  induction l with
  | nil => simp [aupdate, alookup]
  | cons p rest ih =>
    obtain ⟨k', v'⟩ := p
    by_cases h : k' = k <;> simp [aupdate, alookup, h, ih]

@[simp] theorem alookup_aupdate_ne {α : Type} (k k₂ : Nat) (v : α) (l : List (Nat × α))
    (h : k ≠ k₂) : alookup (aupdate k v l) k₂ = alookup l k₂ := by
  induction l with
  | nil => simp [aupdate]
  | cons p rest ih =>
    obtain ⟨k', v'⟩ := p
    by_cases h' : k' = k
    · subst h'; simp [aupdate, alookup, h, ih]
    · by_cases h2 : k' = k₂
      · subst h2; simp [aupdate, alookup, h']
      · simp [aupdate, alookup, h', h2, ih]

theorem mem_of_mem_aremove {α : Type} {k : Nat} {p : Nat × α} {l : List (Nat × α)}
    (h : p ∈ aremove k l) : p ∈ l ∧ p.1 ≠ k := by
  have := List.of_mem_filter h
  exact ⟨List.mem_of_mem_filter h, by simpa using this⟩

/-! ## Claim C5: `is_banned` is active-entry lookup -/

theorem isBanned_iff_active (now : Nat) (m : BanMap) (ip : Nat) :
    isBanned now m ip = true ↔
      ∃ e, alookup m ip = some e ∧
        (e.expires_at = none ∨ ∃ t, e.expires_at = some t ∧ now < t) := by
  cases h : alookup m ip with
  | none => simp [isBanned, h]
  | some e =>
    cases he : e.expires_at with
    | none => simp [isBanned, h, BanEntry.is_active, he]
    | some t => simp [isBanned, h, BanEntry.is_active, he]

/-- C5: for every sequence of `ban_permanent` / `ban_temporary` / `unban` /
`cleanup_expired` operations and every IP, `is_banned(ip)` holds iff the
store holds an entry for the IP whose `expires_at` is `none` or strictly
later than `now`; an entry whose expiry has passed yields `false`. -/
theorem c5_is_banned_iff_active_entry (ops : List BanOp) (now ip : Nat) :
    (isBanned now (runBanOps ops) ip = true ↔
      ∃ e, alookup (runBanOps ops) ip = some e ∧
        (e.expires_at = none ∨ ∃ t, e.expires_at = some t ∧ now < t)) ∧
    (∀ e t, alookup (runBanOps ops) ip = some e → e.expires_at = some t →
      t ≤ now → isBanned now (runBanOps ops) ip = false) := by
  refine ⟨isBanned_iff_active now (runBanOps ops) ip, ?_⟩
  intro e t hl he hle
  simp [isBanned, hl, BanEntry.is_active, he, Nat.not_lt.mpr hle]

/-- Witness for C5 at a temporary ban of IP 1 at time 0 for 5 seconds,
queried at time 10 (expired, hence not banned). -/
theorem c5_witness :
    isBanned 10 (runBanOps [BanOp.temporary 0 1 5 "spam"]) 1 = false :=
  (c5_is_banned_iff_active_entry [BanOp.temporary 0 1 5 "spam"] 10 1).2
    { ip := 1, reason := "spam", banned_at := 0, expires_at := some 5 } 5
    (by decide) (by decide) (by decide)

/-! ## Claim C6: save / load round trip preserves active entries -/

theorem banListFromJson_toJson (m : BanMap) :
    banListFromJson (banListToJson m) = m := by
  induction m with
  | nil => rfl
  | cons p rest ih =>
    obtain ⟨k, e⟩ := p
    simpa [banListToJson, banListFromJson, banEntryToJson, banEntryFromJson] using ih

/-- C6: reconstructing a `BanManager` from the JSON written by `save`
yields the same active entries as the original in-memory map (startup runs
`cleanup_expired`, which removes only inactive entries). -/
theorem c6_save_load_roundtrip (m : BanMap) (now : Nat) :
    activeBans now (banManagerNew now (banListToJson m)) = activeBans now m := by
  rw [banManagerNew, banListFromJson_toJson]
  simp [activeBans, cleanupExpired, List.filter_filter]

/-! ## Claim C9: the exponential connection delay -/



theorem toI32_eq_of_small {n : Nat} (h : n < 2147483648) : toI32 n = (n : Int) := by
  have h32 : n < 4294967296 := lt_trans h (by norm_num)
  simp [toI32, Nat.mod_eq_of_lt h32, h]

/-- C9 (amended): the delay is `0` for `attempts <= 1`, and equals
`min(base * multiplier^(attempts-1), max)` (truncated to an integer) for
`2 <= attempts <= 2^31`; beyond `2^31` the `as i32` cast of the exponent
wraps and the formula no longer applies (see the counterexample). -/
theorem c9_connection_delay (cfg : AutoBahnConfig) (attempts : Nat) :
    (attempts ≤ 1 → calculateConnectionDelay cfg attempts = 0) ∧
    (2 ≤ attempts → attempts ≤ 2147483648 →
      calculateConnectionDelay cfg attempts =
        (⌊min ((cfg.connection_delay_base_ms : ℚ) *
                cfg.connection_delay_multiplier ^ (attempts - 1))
            ((cfg.connection_delay_max_ms : ℚ))⌋).toNat) ∧
    (calculateConnectionDelay exampleAutoBahnConfig 1 = 0 ∧
     calculateConnectionDelay exampleAutoBahnConfig 2 = 200 ∧
     calculateConnectionDelay exampleAutoBahnConfig 3 = 400 ∧
     calculateConnectionDelay exampleAutoBahnConfig 4 = 800) := by
  refine ⟨?_, ?_, ?_, ?_, ?_, ?_⟩
  · intro h
    simp [calculateConnectionDelay, h]
  · intro h2 hle
    have hnot : ¬ attempts ≤ 1 := by omega
    have hsmall : attempts - 1 < 2147483648 := by omega
    rw [calculateConnectionDelay, if_neg hnot, toI32_eq_of_small hsmall,
      zpow_natCast]
  · rw [calculateConnectionDelay]; norm_num
  · rw [calculateConnectionDelay, exampleAutoBahnConfig]; norm_num [toI32]; rfl
  · rw [calculateConnectionDelay, exampleAutoBahnConfig]; norm_num [toI32]; rfl
  · rw [calculateConnectionDelay, exampleAutoBahnConfig]; norm_num [toI32]; rfl

/-- Witness for C9 at `attempts = 3` with the example configuration. -/
theorem c9_witness :
    calculateConnectionDelay exampleAutoBahnConfig 3 =
      (⌊min ((100 : ℚ) * 2 ^ (3 - 1 : Nat)) ((60000 : ℚ))⌋).toNat :=
  (c9_connection_delay exampleAutoBahnConfig 3).2.1 (by decide) (by norm_num)

/-- Counterexample to C9 as stated: at `attempts = 2^32 - 1` (reachable,
since `connection_attempts` is a saturating `u32`), `(attempts - 1) as i32`
wraps to `-2`, so the code returns `100 * 2^(-2) = 25` ms where the claimed
formula `min(base * multiplier^(attempts-1), max)` gives `60000`. -/
theorem c9_counterexample :
    calculateConnectionDelay exampleAutoBahnConfig 4294967295 = 25 ∧
    min ((100 : ℚ) * 2 ^ (4294967295 - 1 : Nat)) ((60000 : ℚ)) = 60000 ∧
    (25 : Nat) ≠ 60000 := by
  refine ⟨?_, ?_, by decide⟩
  · rw [calculateConnectionDelay, exampleAutoBahnConfig, if_neg (by norm_num)]
    norm_num [toI32]
    rfl
  · have hpow : (1024 : ℚ) ≤ 2 ^ (4294967294 : Nat) := by
      calc (1024 : ℚ) = 2 ^ (10 : Nat) := by norm_num
        _ ≤ 2 ^ (4294967294 : Nat) := pow_le_pow_right₀ one_le_two (by norm_num)
    have hge : (60000 : ℚ) ≤ 100 * 2 ^ (4294967294 : Nat) := by
      calc (60000 : ℚ) ≤ 100 * 1024 := by norm_num
        _ ≤ 100 * 2 ^ (4294967294 : Nat) :=
            mul_le_mul_of_nonneg_left hpow (by norm_num)
    rw [show (4294967295 - 1 : Nat) = 4294967294 from rfl]
    exact min_eq_right hge

/-! ## Claim C1: the admission pipeline -/

/-- C1 (amended): the accept loop applies exactly three checks in the fixed
order ban store, GeoIP filter, threat list; the first failure closes the
connection with its textual reason and no later check decides the outcome;
the stream is handed to the SSH library iff all three pass.  The AutoBahn
`check_connection` hook is never invoked (see the counterexample). -/
theorem c1_admission_pipeline (now : Nat) (bans : BanMap)
    (geo threat : Except String Unit) (ip : Nat) :
    (admission now bans geo threat ip = .handed ↔
      checkBan now bans ip = none ∧ geo = .ok () ∧ threat = .ok ()) ∧
    (∀ e, checkBan now bans ip = some e →
      admission now bans geo threat ip =
        .rejected (rejectionLine (banRejectReason e))) ∧
    (checkBan now bans ip = none → ∀ msg, geo = .error msg →
      admission now bans geo threat ip = .rejected (rejectionLine msg)) ∧
    (checkBan now bans ip = none → geo = .ok () → ∀ msg, threat = .error msg →
      admission now bans geo threat ip = .rejected (rejectionLine msg)) := by
  refine ⟨?_, ?_, ?_, ?_⟩
  · cases hb : checkBan now bans ip with
    | some e => simp [admission, hb]
    | none =>
      cases geo with
      | error e => simp [admission, hb]
      | ok u =>
        cases u
        cases threat with
        | error e => simp [admission, hb]
        | ok u => cases u; simp [admission, hb]
  · intro e hb; simp [admission, hb]
  · intro hb msg hg; simp [admission, hb, hg]
  · intro hb hg msg ht; simp [admission, hb, hg, ht]

/-- Witness for C1: with an empty ban store and passing GeoIP / threat
checks the stream is handed to the SSH library. -/
theorem c1_witness :
    admission 0 [] (Except.ok ()) (Except.ok ()) 7 = AdmissionResult.handed :=
  (c1_admission_pipeline 0 [] (.ok ()) (.ok ()) 7).1.mpr ⟨rfl, rfl, rfl⟩



/-! ## Claim C2: channel separation on every reachable state -/

theorem fanout_removeClient (now : Nat) (st : HubState) (id : Nat) :
    ∀ e ∈ (removeClient now st id).fanout, e ∈ st.fanout ∨ isClientVisible e = true := by
  intro e he
  cases h : alookup st.clients id with
  | none => simp [removeClient, h] at he; exact Or.inl he
  | some c =>
    simp [removeClient, h] at he
    rcases he with he | he
    · exact Or.inl he
    · subst he; exact Or.inr rfl

theorem fanout_foldRemove (now : Nat) :
    ∀ (ids : List Nat) (s : HubState),
      ∀ e ∈ (ids.foldl (fun x k => removeClient now x k) s).fanout,
        e ∈ s.fanout ∨ isClientVisible e = true := by
  intro ids
  induction ids with
  | nil => intro s e he; exact Or.inl he
  | cons i rest ih =>
    intro s e he
    rcases ih (removeClient now s i) e he with h | h
    · exact fanout_removeClient now s i e h
    · exact Or.inr h

theorem fanout_applyHubOp (maxClients : Nat) (st : HubState) (op : HubOp) :
    ∀ e ∈ (applyHubOp maxClients st op).fanout,
      e ∈ st.fanout ∨ isClientVisible e = true := by
  intro e he
  cases op with
  | add freshId color now nickname ip =>
    by_cases h1 : maxClients ≤ st.clients.length
    · simp [applyHubOp, addClient, h1] at he; exact Or.inl he
    · by_cases h2 : st.clients.any (fun p => p.2.nickname = nickname)
      · simp [applyHubOp, addClient, h1, h2] at he; exact Or.inl he
      · simp [applyHubOp, addClient, h1, h2] at he
        rcases he with he | he
        · exact Or.inl he
        · subst he; exact Or.inr rfl
  | remove now id => exact fanout_removeClient now st id e he
  | chat now id text =>
    cases h : alookup st.clients id with
    | none => simp [applyHubOp, broadcastChat, h] at he; exact Or.inl he
    | some c =>
      simp [applyHubOp, broadcastChat, h] at he
      rcases he with he | he
      · exact Or.inl he
      · subst he; exact Or.inr rfl
  | logSys now level msg ip =>
    simp [applyHubOp, logSystem] at he; exact Or.inl he
  | kick now t reason =>
    cases h : resolveTarget st t with
    | error msg => simp [applyHubOp, kickClient, h] at he; exact Or.inl he
    | ok c =>
      simp only [applyHubOp, kickClient, h] at he
      exact fanout_removeClient now st c.id e he
  | ban now t duration reason =>
    cases h : resolveTargetToIp st t with
    | error msg => simp [applyHubOp, banClient, h] at he; exact Or.inl he
    | ok ip =>
      simp only [applyHubOp, banClient, h] at he
      cases hd : duration.to_duration with
      | none =>
        simp only [hd] at he
        rcases fanout_foldRemove now _ _ e he with h' | h'
        · exact Or.inl h'
        · exact Or.inr h'
      | some dur =>
        simp only [hd] at he
        rcases fanout_foldRemove now _ _ e he with h' | h'
        · exact Or.inl h'
        · exact Or.inr h'
  | unbanOp now ipParse =>
    cases ipParse with
    | none => simp [applyHubOp, unbanClient] at he; exact Or.inl he
    | some ip =>
      by_cases hr : (unban st.banMap ip).1 = true
      · simp [applyHubOp, unbanClient, hr] at he; exact Or.inl he
      · simp [applyHubOp, unbanClient, hr] at he; exact Or.inl he

theorem fanout_runAux (maxClients : Nat) :
    ∀ (ops : List HubOp) (st : HubState),
      (∀ e ∈ st.fanout, isClientVisible e = true) →
      ∀ e ∈ (List.foldl (applyHubOp maxClients) st ops).fanout,
        isClientVisible e = true := by
  intro ops
  induction ops with
  | nil => intro st h e he; exact h e he
  | cons op rest ih =>
    intro st h e he
    refine ih (applyHubOp maxClients st op) ?_ e he
    intro e' he'
    rcases fanout_applyHubOp maxClients st op e' he' with h' | h'
    · exact h e' h'
    · exact h'

/-- C2: on every state reachable by a sequence of Hub operations, every
event on the fanout (broadcast) channel is a `Chat` or a `Notice` (never a
`System`), and the session writer task skips the `System` variant, never
writing it to an SSH channel.  The operator log channel is typed
`SystemLog` in the source, so it carries only `System` logs by
construction. -/
theorem c2_channel_separation (maxClients : Nat) (ops : List HubOp) :
    (∀ e ∈ (runHub maxClients ops).fanout, isClientVisible e = true) ∧
    (∀ s : SystemLog, formatEvent (.system s) = none) := by
  constructor
  · exact fanout_runAux maxClients ops HubState.init (by intro e he; cases he)
  · intro s; rfl

/-! ## Claim C3: nickname uniqueness -/

theorem mem_aset {α : Type} {k : Nat} {v : α} {p : Nat × α} :
    ∀ {l : List (Nat × α)}, p ∈ aset k v l → p ∈ l ∨ p = (k, v) := by
  intro l
  induction l with
  | nil => intro h; simp [aset] at h; exact Or.inr h
  | cons q rest ih =>
    obtain ⟨k', v'⟩ := q
    intro h
    by_cases hk : k' = k
    · simp [aset, hk] at h
      rcases h with h | h
      · exact Or.inr (by simp [h])
      · exact Or.inl (List.mem_cons_of_mem _ h)
    · simp [aset, hk] at h
      rcases h with h | h
      · exact Or.inl (by simp [h])
      · rcases ih h with h' | h'
        · exact Or.inl (List.mem_cons_of_mem _ h')
        · exact Or.inr h'

theorem nickUniqueL_aset {l : List (Nat × Client)} {k : Nat} {v : Client}
    (h : NickUniqueL l) (hfresh : ∀ p ∈ l, p.2.nickname ≠ v.nickname) :
    NickUniqueL (aset k v l) := by
  induction l with
  | nil => simp [aset, NickUniqueL]
  | cons q rest ih =>
    obtain ⟨k', v'⟩ := q
    rw [NickUniqueL, List.pairwise_cons] at h
    by_cases hk : k' = k
    · have heq : aset k v ((k', v') :: rest) = (k, v) :: rest := by
        simp [aset, hk]
      rw [NickUniqueL, heq]
      refine List.pairwise_cons.mpr ⟨?_, h.2⟩
      intro b hb
      exact fun hc => hfresh b (List.mem_cons_of_mem _ hb) hc.symm
    · have heq : aset k v ((k', v') :: rest) = (k', v') :: aset k v rest := by
        simp [aset, hk]
      rw [NickUniqueL, heq]
      refine List.pairwise_cons.mpr ⟨?_, ?_⟩
      · intro b hb
        rcases mem_aset hb with h' | h'
        · exact h.1 b h'
        · subst h'
          exact hfresh (k', v') (List.mem_cons_self _ _)
      · exact ih h.2 (fun p hp => hfresh p (List.mem_cons_of_mem _ hp))

theorem nickUniqueL_aremove {l : List (Nat × Client)} (k : Nat)
    (h : NickUniqueL l) : NickUniqueL (aremove k l) :=
  List.Pairwise.sublist (List.filter_sublist l) h

theorem nickUnique_removeClient (now : Nat) (st : HubState) (id : Nat)
    (h : NickUnique st) : NickUnique (removeClient now st id) := by
  cases hl : alookup st.clients id with
  | none => simpa [NickUnique, removeClient, hl] using h
  | some c =>
    simp only [NickUnique, removeClient, hl]
    exact nickUniqueL_aremove id h

theorem nickUnique_foldRemove (now : Nat) :
    ∀ (ids : List Nat) (s : HubState), NickUnique s →
      NickUnique (ids.foldl (fun x k => removeClient now x k) s) := by
  intro ids
  induction ids with
  | nil => intro s h; exact h
  | cons i rest ih =>
    intro s h
    exact ih (removeClient now s i) (nickUnique_removeClient now s i h)

theorem nickUnique_addClient (maxClients freshId : Nat) (color : Color)
    (now : Nat) (st : HubState) (nickname : String) (ip : Nat)
    (h : NickUnique st) :
    NickUnique (addClient maxClients freshId color now st nickname ip).2 := by
  by_cases h1 : maxClients ≤ st.clients.length
  · simpa [addClient, h1] using h
  · by_cases h2 : st.clients.any (fun p => p.2.nickname = nickname)
    · simpa [addClient, h1, h2] using h
    · have hfresh : ∀ p ∈ st.clients, p.2.nickname ≠ nickname := by
        intro p hp hc
        exact h2 (List.any_eq_true.mpr ⟨p, hp, by simp [hc]⟩)
      simp only [addClient, if_neg h1, if_neg h2]
      exact nickUniqueL_aset h hfresh

theorem nickUnique_applyHubOp (maxClients : Nat) (st : HubState) (op : HubOp)
    (h : NickUnique st) : NickUnique (applyHubOp maxClients st op) := by
  cases op with
  | add freshId color now nickname ip =>
    exact nickUnique_addClient maxClients freshId color now st nickname ip h
  | remove now id => exact nickUnique_removeClient now st id h
  | chat now id text =>
    cases hl : alookup st.clients id with
    | none => simpa [applyHubOp, broadcastChat, hl] using h
    | some c => simpa [applyHubOp, broadcastChat, hl] using h
  | logSys now level msg ip => simpa [applyHubOp, logSystem] using h
  | kick now t reason =>
    cases hr : resolveTarget st t with
    | error msg => simpa [applyHubOp, kickClient, hr] using h
    | ok c =>
      simp only [applyHubOp, kickClient, hr]
      exact nickUnique_removeClient now st c.id h
  | ban now t duration reason =>
    cases hr : resolveTargetToIp st t with
    | error msg => simpa [applyHubOp, banClient, hr] using h
    | ok ip =>
      simp only [applyHubOp, banClient, hr]
      cases hd : duration.to_duration with
      | none =>
        simp only [hd]
        exact nickUnique_foldRemove now _ _ h
      | some dur =>
        simp only [hd]
        exact nickUnique_foldRemove now _ _ h
  | unbanOp now ipParse =>
    cases ipParse with
    | none => simpa [applyHubOp, unbanClient] using h
    | some ip =>
      by_cases hrm : (unban st.banMap ip).1 = true
      · simpa [applyHubOp, unbanClient, hrm] using h
      · simpa [applyHubOp, unbanClient, hrm] using h

theorem nickUnique_runAux (maxClients : Nat) :
    ∀ (ops : List HubOp) (st : HubState), NickUnique st →
      NickUnique (List.foldl (applyHubOp maxClients) st ops) := by
  intro ops
  induction ops with
  | nil => intro st h; exact h
  | cons op rest ih =>
    intro st h
    exact ih (applyHubOp maxClients st op) (nickUnique_applyHubOp maxClients st op h)

/-- C3: from the empty registry, every sequence of Hub operations keeps the
live clients' nicknames pairwise distinct (case-sensitive); and whenever
the requested nickname is already held by a live client, `add_client`
returns an error and leaves the state unchanged. -/
theorem c3_nickname_uniqueness (maxClients : Nat) (ops : List HubOp) :
    NickUnique (runHub maxClients ops) ∧
    (∀ (st : HubState) (freshId : Nat) (color : Color) (now : Nat)
        (nickname : String) (ip : Nat),
      (∃ p ∈ st.clients, p.2.nickname = nickname) →
      (∃ msg, (addClient maxClients freshId color now st nickname ip).1 =
         .error msg) ∧
      (addClient maxClients freshId color now st nickname ip).2 = st) := by
  constructor
  · exact nickUnique_runAux maxClients ops HubState.init (by simp [NickUnique, NickUniqueL, HubState.init])
  · intro st freshId color now nickname ip htaken
    by_cases h1 : maxClients ≤ st.clients.length
    · exact ⟨⟨"Server full", by simp [addClient, h1]⟩, by simp [addClient, h1]⟩
    · have h2 : st.clients.any (fun p => p.2.nickname = nickname) = true := by
        obtain ⟨p, hp, hnick⟩ := htaken
        exact List.any_eq_true.mpr ⟨p, hp, by simp [hnick]⟩
      exact ⟨⟨"Nickname already taken", by simp [addClient, h1, h2]⟩,
        by simp [addClient, h1, h2]⟩

/-- Witness for C3: adding a second client with nickname "bob" fails and
leaves the registry unchanged. -/
theorem c3_witness :
    (∃ msg, (addClient 10 2 Color.green 1
        { clients := [(1, { id := 1, nickname := "bob", ip := 7,
                            color := .red, connected_at := 0 })],
          stats := ⟨0, 0, 0, 0⟩, banMap := [], fanout := [], opLog := [] }
        "bob" 9).1 = .error msg) ∧
    (addClient 10 2 Color.green 1
        { clients := [(1, { id := 1, nickname := "bob", ip := 7,
                            color := .red, connected_at := 0 })],
          stats := ⟨0, 0, 0, 0⟩, banMap := [], fanout := [], opLog := [] }
        "bob" 9).2 =
      { clients := [(1, { id := 1, nickname := "bob", ip := 7,
                          color := .red, connected_at := 0 })],
        stats := ⟨0, 0, 0, 0⟩, banMap := [], fanout := [], opLog := [] } :=
  (c3_nickname_uniqueness 10 []).2
    { clients := [(1, { id := 1, nickname := "bob", ip := 7,
                        color := .red, connected_at := 0 })],
      stats := ⟨0, 0, 0, 0⟩, banMap := [], fanout := [], opLog := [] }
    2 Color.green 1 "bob" 9
    ⟨(1, { id := 1, nickname := "bob", ip := 7, color := .red,
           connected_at := 0 }), by simp, rfl⟩

/-! ## Claim C4: `ban_client` postconditions -/

theorem alookup_eq_none_iff {α : Type} {l : List (Nat × α)} {k : Nat} :
    alookup l k = none ↔ ∀ p ∈ l, p.1 ≠ k := by
  induction l with
  | nil => simp
  | cons q rest ih =>
    obtain ⟨k', v'⟩ := q
    by_cases h : k' = k
    · subst h; simp [alookup_cons]
    · simp [alookup_cons, h, ih]

theorem alookup_of_mem_distinct {α : Type} {l : List (Nat × α)} {k : Nat} {v : α}
    (hd : KeysDistinct l) (hm : (k, v) ∈ l) : alookup l k = some v := by
  induction l with
  | nil => cases hm
  | cons q rest ih =>
    obtain ⟨k', v'⟩ := q
    rw [KeysDistinct, List.pairwise_cons] at hd
    rcases List.mem_cons.mp hm with h | h
    · rw [← h]; simp [alookup_cons]
    · have hne : k' ≠ k := hd.1 (k, v) h
      simp only [alookup_cons, if_neg hne]
      exact ih hd.2 h

theorem mem_aremove_of_ne {α : Type} {l : List (Nat × α)} {p : Nat × α} {k : Nat}
    (hm : p ∈ l) (hne : p.1 ≠ k) : p ∈ aremove k l :=
  List.mem_filter.mpr ⟨hm, by simpa using hne⟩

theorem keysDistinct_aremove {α : Type} {l : List (Nat × α)} (k : Nat)
    (h : KeysDistinct l) : KeysDistinct (aremove k l) :=
  List.Pairwise.sublist (List.filter_sublist l) h

theorem removeClient_banMap (now : Nat) (st : HubState) (id : Nat) :
    (removeClient now st id).banMap = st.banMap := by
  cases h : alookup st.clients id <;> simp [removeClient, h]

theorem removeClient_stats (now : Nat) (st : HubState) (id : Nat) :
    (removeClient now st id).stats = st.stats := by
  cases h : alookup st.clients id <;> simp [removeClient, h]

theorem removeClient_opLogPrefix (now : Nat) (st : HubState) (id : Nat) :
    ∀ e ∈ st.fanout, e ∈ (removeClient now st id).fanout := by
  intro e he
  cases h : alookup st.clients id <;> simp [removeClient, h, he]

theorem mem_clients_removeClient {now : Nat} {st : HubState} {id : Nat}
    {p : Nat × Client} (hm : p ∈ (removeClient now st id).clients) :
    p ∈ st.clients ∧ p.1 ≠ id := by
  cases h : alookup st.clients id with
  | none =>
    rw [removeClient, h] at hm
    exact ⟨hm, alookup_eq_none_iff.mp h p hm⟩
  | some c =>
    simp only [removeClient, h] at hm
    exact mem_of_mem_aremove hm

theorem keysDistinct_removeClient (now : Nat) (st : HubState) (id : Nat)
    (h : KeysDistinct st.clients) :
    KeysDistinct (removeClient now st id).clients := by
  cases hl : alookup st.clients id with
  | none => simpa [removeClient, hl] using h
  | some c =>
    simp only [removeClient, hl]
    exact keysDistinct_aremove id h

theorem foldRemove_banMap (now : Nat) :
    ∀ (ids : List Nat) (s : HubState),
      (ids.foldl (fun x k => removeClient now x k) s).banMap = s.banMap := by
  intro ids
  induction ids with
  | nil => intro s; rfl
  | cons i rest ih =>
    intro s
    rw [List.foldl_cons, ih (removeClient now s i), removeClient_banMap]

theorem foldRemove_stats (now : Nat) :
    ∀ (ids : List Nat) (s : HubState),
      (ids.foldl (fun x k => removeClient now x k) s).stats = s.stats := by
  intro ids
  induction ids with
  | nil => intro s; rfl
  | cons i rest ih =>
    intro s
    rw [List.foldl_cons, ih (removeClient now s i), removeClient_stats]

theorem mem_clients_foldRemove (now : Nat) :
    ∀ (ids : List Nat) (s : HubState) (p : Nat × Client),
      p ∈ (ids.foldl (fun x k => removeClient now x k) s).clients →
      p ∈ s.clients ∧ p.1 ∉ ids := by
  intro ids
  induction ids with
  | nil => intro s p hm; exact ⟨hm, by simp⟩
  | cons i rest ih =>
    intro s p hm
    obtain ⟨hm1, hni⟩ := ih (removeClient now s i) p hm
    obtain ⟨hm2, hne⟩ := mem_clients_removeClient hm1
    exact ⟨hm2, by simp [hne, hni]⟩

theorem fanout_mono_foldRemove (now : Nat) :
    ∀ (ids : List Nat) (s : HubState) (e : MessageEvent),
      e ∈ s.fanout → e ∈ (ids.foldl (fun x k => removeClient now x k) s).fanout := by
  intro ids
  induction ids with
  | nil => intro s e he; exact he
  | cons i rest ih =>
    intro s e he
    exact ih (removeClient now s i) e (removeClient_opLogPrefix now s i e he)

theorem notice_emitted_foldRemove (now : Nat) :
    ∀ (ids : List Nat) (s : HubState) (k : Nat) (c : Client),
      KeysDistinct s.clients → (k, c) ∈ s.clients → k ∈ ids →
      MessageEvent.notice
        { timestamp := now, kind := .left, nickname := c.nickname, ip := c.ip } ∈
        (ids.foldl (fun x k => removeClient now x k) s).fanout := by
  intro ids
  induction ids with
  | nil => intro s k c _ _ hk; cases hk
  | cons i rest ih =>
    intro s k c hd hm hk
    by_cases hik : k = i
    · subst hik
      have hl : alookup s.clients k = some c := alookup_of_mem_distinct hd hm
      have hmem : MessageEvent.notice
          { timestamp := now, kind := .left, nickname := c.nickname, ip := c.ip } ∈
          (removeClient now s k).fanout := by
        simp [removeClient, hl]
      exact fanout_mono_foldRemove now rest (removeClient now s k) _ hmem
    · have hrest : k ∈ rest := by
        rcases List.mem_cons.mp hk with h | h
        · exact absurd h hik
        · exact h
      have hm' : (k, c) ∈ (removeClient now s i).clients := by
        cases hl : alookup s.clients i with
        | none => rw [removeClient, hl]; exact hm
        | some c' =>
          simp only [removeClient, hl]
          exact mem_aremove_of_ne hm hik
      exact ih (removeClient now s i) k c
        (keysDistinct_removeClient now s i hd) hm' hrest

/-- C4: when `ban_client` succeeds after resolving the target to an IP, the
returned state has: a ban entry for that IP (permanent or expiring at
`now + duration`), no live client left on that IP (each removed client
having emitted a `Notice{Left}` on the fanout), and `total_bans` bumped by
one. -/
theorem c4_ban_postconditions (now : Nat) (st : HubState) (t : Target)
    (duration : BanDuration) (reason : Option String) (ip : Nat)
    (hd : KeysDistinct st.clients)
    (hres : resolveTargetToIp st t = .ok ip) :
    (∃ msg, (banClient now st t duration reason).1 = .ok msg) ∧
    alookup (banClient now st t duration reason).2.banMap ip =
      some { ip := ip, reason := reason.getD "No reason provided",
             banned_at := now,
             expires_at := duration.to_duration.map (fun d => now + d) } ∧
    (∀ p ∈ (banClient now st t duration reason).2.clients, p.2.ip ≠ ip) ∧
    (banClient now st t duration reason).2.stats.total_bans =
      st.stats.total_bans + 1 ∧
    (∀ p ∈ st.clients, p.2.ip = ip →
      MessageEvent.notice
        { timestamp := now, kind := .left, nickname := p.2.nickname,
          ip := p.2.ip } ∈ (banClient now st t duration reason).2.fanout) := by
  cases hdur : duration.to_duration with
  | none =>
    refine ⟨⟨banResultMsg ip duration, by simp [banClient, hres, hdur]⟩, ?_, ?_, ?_, ?_⟩
    · simp only [banClient, hres, hdur, foldRemove_banMap]
      simp [banPermanent, hdur]
    · intro p hp
      simp only [banClient, hres, hdur] at hp
      obtain ⟨hmem, hnotin⟩ := mem_clients_foldRemove now _ _ p hp
      intro hip
      exact hnotin (List.mem_map.mpr ⟨p, List.mem_filter.mpr ⟨hmem, by simp [hip]⟩, rfl⟩)
    · simp only [banClient, hres, hdur, foldRemove_stats]
    · intro p hp hip
      simp only [banClient, hres, hdur]
      refine notice_emitted_foldRemove now _ _ p.1 p.2 hd ?_ ?_
      · exact hp
      · exact List.mem_map.mpr ⟨p, List.mem_filter.mpr ⟨hp, by simp [hip]⟩, rfl⟩
  | some dur =>
    refine ⟨⟨banResultMsg ip duration, by simp [banClient, hres, hdur]⟩, ?_, ?_, ?_, ?_⟩
    · simp only [banClient, hres, hdur, foldRemove_banMap]
      simp [banTemporary, hdur]
    · intro p hp
      simp only [banClient, hres, hdur] at hp
      obtain ⟨hmem, hnotin⟩ := mem_clients_foldRemove now _ _ p hp
      intro hip
      exact hnotin (List.mem_map.mpr ⟨p, List.mem_filter.mpr ⟨hmem, by simp [hip]⟩, rfl⟩)
    · simp only [banClient, hres, hdur, foldRemove_stats]
    · intro p hp hip
      simp only [banClient, hres, hdur]
      refine notice_emitted_foldRemove now _ _ p.1 p.2 hd ?_ ?_
      · exact hp
      · exact List.mem_map.mpr ⟨p, List.mem_filter.mpr ⟨hp, by simp [hip]⟩, rfl⟩

/-- Witness for C4: permanently banning IP 7 by bare address removes the
one connected client from that IP. -/
theorem c4_witness :
    (∃ msg, (banClient 5
        { clients := [(1, { id := 1, nickname := "bob", ip := 7,
                            color := .red, connected_at := 0 })],
          stats := ⟨0, 0, 0, 0⟩, banMap := [], fanout := [], opLog := [] }
        { raw := "7", kind := .ipAddr 7 } BanDuration.permanent none).1 =
      .ok msg) ∧
    alookup (banClient 5
        { clients := [(1, { id := 1, nickname := "bob", ip := 7,
                            color := .red, connected_at := 0 })],
          stats := ⟨0, 0, 0, 0⟩, banMap := [], fanout := [], opLog := [] }
        { raw := "7", kind := .ipAddr 7 } BanDuration.permanent none).2.banMap 7 =
      some { ip := 7, reason := "No reason provided", banned_at := 5,
             expires_at := none } ∧
    (∀ p ∈ (banClient 5
        { clients := [(1, { id := 1, nickname := "bob", ip := 7,
                            color := .red, connected_at := 0 })],
          stats := ⟨0, 0, 0, 0⟩, banMap := [], fanout := [], opLog := [] }
        { raw := "7", kind := .ipAddr 7 } BanDuration.permanent none).2.clients,
      p.2.ip ≠ 7) ∧
    (banClient 5
        { clients := [(1, { id := 1, nickname := "bob", ip := 7,
                            color := .red, connected_at := 0 })],
          stats := ⟨0, 0, 0, 0⟩, banMap := [], fanout := [], opLog := [] }
        { raw := "7", kind := .ipAddr 7 } BanDuration.permanent none).2.stats.total_bans =
      0 + 1 ∧
    (∀ p ∈ [((1 : Nat), { id := 1, nickname := "bob", ip := 7,
                          color := Color.red, connected_at := 0 : Client })],
      p.2.ip = 7 →
      MessageEvent.notice
        { timestamp := 5, kind := .left, nickname := p.2.nickname,
          ip := p.2.ip } ∈ (banClient 5
        { clients := [(1, { id := 1, nickname := "bob", ip := 7,
                            color := .red, connected_at := 0 })],
          stats := ⟨0, 0, 0, 0⟩, banMap := [], fanout := [], opLog := [] }
        { raw := "7", kind := .ipAddr 7 } BanDuration.permanent none).2.fanout) :=
  c4_ban_postconditions 5
    { clients := [(1, { id := 1, nickname := "bob", ip := 7,
                        color := .red, connected_at := 0 })],
      stats := ⟨0, 0, 0, 0⟩, banMap := [], fanout := [], opLog := [] }
    { raw := "7", kind := .ipAddr 7 } BanDuration.permanent none 7
    (by simp [KeysDistinct]) rfl

/-! ## Claim C7: the sliding flood window -/

theorem dropExpired_keep {now w : Nat} {h : List Nat}
    (hk : ∀ s ∈ h, durationSince now s ≤ w) : dropExpired now w h = h := by
  cases h with
  | nil => rfl
  | cons t rest =>
    have := hk t (List.mem_cons_self _ _)
    rw [dropExpired, if_neg (by omega)]

theorem dropExpired_all {now w : Nat} :
    ∀ {h : List Nat}, (∀ s ∈ h, w < durationSince now s) →
      dropExpired now w h = [] := by
  intro h
  induction h with
  | nil => intro _; rfl
  | cons t rest ih =>
    intro hk
    rw [dropExpired, if_pos (hk t (List.mem_cons_self _ _))]
    exact ih (fun s hs => hk s (List.mem_cons_of_mem _ hs))

theorem floodCalls_ok (cfg : FloodConfig) (c : Nat) :
    ∀ (todo done : List Nat) (st : RLState),
      alookup st.messageHistory c = some done →
      done.length + todo.length ≤ cfg.max_messages_in_window →
      (done ++ todo).Pairwise (fun a b => a ≤ b ∧ b - a ≤ cfg.window_seconds) →
      ∃ stF, floodCalls cfg c st todo = (true, stF) ∧
        alookup stF.messageHistory c = some (done ++ todo) := by
  intro todo
  induction todo with
  | nil =>
    intro done st hl _ _
    exact ⟨st, rfl, by simpa using hl⟩
  | cons t rest ih =>
    intro done st hl hlen hpw
    have hkeep : ∀ s ∈ done, durationSince t s ≤ cfg.window_seconds := by
      intro s hs
      have hrel := (List.pairwise_append.mp hpw).2.2 s hs t (List.mem_cons_self _ _)
      rw [durationSince, if_pos hrel.1]
      exact hrel.2
    have hdrop : dropExpired t cfg.window_seconds done = done := dropExpired_keep hkeep
    have hlt : ¬ cfg.max_messages_in_window ≤ done.length := by
      simp only [List.length_cons] at hlen
      omega
    have hstep : checkFlood cfg t st c =
        (.ok (), { st with
          messageHistory := aupdate c (done ++ [t]) st.messageHistory }) := by
      simp only [checkFlood, hl, hdrop, if_neg hlt]
    have hl' : alookup ({ st with
        messageHistory := aupdate c (done ++ [t]) st.messageHistory }).messageHistory
          c = some (done ++ [t]) := by
      simp [alookup_aupdate_self, hl]
    have hassoc : (done ++ [t]) ++ rest = done ++ t :: rest := by simp
    obtain ⟨stF, hrun, hlF⟩ := ih (done ++ [t]) _ hl'
      (by simp only [List.length_append, List.length_cons, List.length_nil] at hlen ⊢; omega)
      (by rw [hassoc]; exact hpw)
    refine ⟨stF, ?_, by simpa [hassoc] using hlF⟩
    show floodCalls cfg c st (t :: rest) = (true, stF)
    simp only [floodCalls, hstep]
    exact hrun

/-- C7: for a registered client with a fresh window,
`max_messages_in_window` `check_flood` calls all within `window_seconds`
all succeed, the next call still inside the window fails with the flood
error and records no timestamp; and any call made strictly more than
`window_seconds` after every recorded predecessor drops them all and
succeeds. -/
theorem c7_flood_window (cfg : FloodConfig) (c : Nat) :
    (∀ (ts : List Nat) (t : Nat) (st0 : RLState),
      alookup st0.messageHistory c = some [] →
      ts.length = cfg.max_messages_in_window →
      (ts ++ [t]).Pairwise (fun a b => a ≤ b ∧ b - a ≤ cfg.window_seconds) →
      ∃ stM, floodCalls cfg c st0 ts = (true, stM) ∧
        alookup stM.messageHistory c = some ts ∧
        (checkFlood cfg t stM c).1 =
          .error (floodMsg cfg.max_messages_in_window cfg.window_seconds) ∧
        alookup (checkFlood cfg t stM c).2.messageHistory c = some ts) ∧
    (∀ (st : RLState) (h : List Nat) (t2 : Nat),
      0 < cfg.max_messages_in_window →
      alookup st.messageHistory c = some h →
      (∀ s ∈ h, cfg.window_seconds + s < t2) →
      (checkFlood cfg t2 st c).1 = .ok () ∧
      alookup (checkFlood cfg t2 st c).2.messageHistory c = some [t2]) := by
  constructor
  · intro ts t st0 hl0 hM hpw
    have hpwts : ts.Pairwise (fun a b => a ≤ b ∧ b - a ≤ cfg.window_seconds) :=
      List.Pairwise.sublist (List.sublist_append_left ts [t]) hpw
    obtain ⟨stM, hrun, hlM⟩ := floodCalls_ok cfg c ts [] st0 hl0
      (by simp [hM]) (by simpa using hpwts)
    simp only [List.nil_append] at hlM
    have hkeep : ∀ s ∈ ts, durationSince t s ≤ cfg.window_seconds := by
      intro s hs
      have hrel := (List.pairwise_append.mp hpw).2.2 s hs t (List.mem_cons_self _ _)
      rw [durationSince, if_pos hrel.1]
      exact hrel.2
    have hdrop : dropExpired t cfg.window_seconds ts = ts := dropExpired_keep hkeep
    have hfull : cfg.max_messages_in_window ≤ ts.length := le_of_eq hM.symm
    have hstep : checkFlood cfg t stM c =
        (.error (floodMsg ts.length cfg.window_seconds),
         { stM with messageHistory := aupdate c ts stM.messageHistory }) := by
      simp only [checkFlood, hlM, hdrop, if_pos hfull]
    refine ⟨stM, hrun, hlM, ?_, ?_⟩
    · rw [hstep, hM]
    · rw [hstep]
      simp [alookup_aupdate_self, hlM]
  · intro st h t2 hpos hl hfar
    have hdropall : dropExpired t2 cfg.window_seconds h = [] := by
      refine dropExpired_all ?_
      intro s hs
      have := hfar s hs
      rw [durationSince, if_pos (by omega)]
      omega
    have hstep : checkFlood cfg t2 st c =
        (.ok (), { st with
          messageHistory := aupdate c ([] ++ [t2]) st.messageHistory }) := by
      simp only [checkFlood, hl, hdropall]
      rw [if_neg (by simpa using Nat.not_le.mpr hpos)]
    rw [hstep]
    constructor
    · rfl
    · simp [alookup_aupdate_self, hl]

/-- Witness for C7 with `window_seconds = 10`, `max_messages_in_window = 3`:
calls at 0, 1, 2 succeed, a fourth at 5 floods; and from history
`[0, 1, 2]` a call at 14 (more than 10 after each) succeeds. -/
theorem c7_witness :
    (∃ stM, floodCalls ⟨10, 3, 5⟩ 1
        (registerClient ⟨10, 3, 5⟩ RLState.init 1 9).2 [0, 1, 2] = (true, stM) ∧
      alookup stM.messageHistory 1 = some [0, 1, 2] ∧
      (checkFlood ⟨10, 3, 5⟩ 5 stM 1).1 = .error (floodMsg 3 10) ∧
      alookup (checkFlood ⟨10, 3, 5⟩ 5 stM 1).2.messageHistory 1 = some [0, 1, 2]) ∧
    ((checkFlood ⟨10, 3, 5⟩ 14
        ⟨[(1, ())], [(9, [1])], [(1, [0, 1, 2])]⟩ 1).1 = .ok () ∧
      alookup (checkFlood ⟨10, 3, 5⟩ 14
        ⟨[(1, ())], [(9, [1])], [(1, [0, 1, 2])]⟩ 1).2.messageHistory 1 =
        some [14]) :=
  ⟨(c7_flood_window ⟨10, 3, 5⟩ 1).1 [0, 1, 2] 5
      (registerClient ⟨10, 3, 5⟩ RLState.init 1 9).2 (by rfl) (by decide) (by decide),
   (c7_flood_window ⟨10, 3, 5⟩ 1).2
      ⟨[(1, ())], [(9, [1])], [(1, [0, 1, 2])]⟩ [0, 1, 2] 14
      (by decide) (by rfl) (by decide)⟩

/-! ## Claims C8 and C10: per-IP registration cap -/

theorem registerClient_count (cfg : FloodConfig) (st : RLState) (c ip : Nat) :
    registerClient cfg st c ip =
      if cfg.max_connections_per_ip ≤ getConnectionCount st ip then
        (.error (tooManyConnectionsMsg ip cfg.max_connections_per_ip),
         { st with ipConnections := amodify ip id [] st.ipConnections })
      else
        (.ok (),
         { clientLimiters := aset c () st.clientLimiters,
           ipConnections := amodify ip (fun l => l ++ [c]) [c]
             (amodify ip id [] st.ipConnections),
           messageHistory := aset c [] st.messageHistory }) := by
  have hn : ((alookup (amodify ip id [] st.ipConnections) ip).getD []).length
      = getConnectionCount st ip := by
    rw [alookup_amodify_self]
    cases h : alookup st.ipConnections ip <;> simp [getConnectionCount, h]
  simp only [registerClient, hn]

theorem getD_length (o : Option (List Nat)) :
    (o.getD []).length = (o.map List.length).getD 0 := by
  cases o <;> simp

theorem getConnectionCount_ensure (st : RLState) (ip ip2 : Nat) :
    getConnectionCount
      { st with ipConnections := amodify ip2 id [] st.ipConnections } ip =
    getConnectionCount st ip := by
  by_cases h : ip2 = ip
  · subst h
    rw [getConnectionCount, getConnectionCount]
    show ((alookup (amodify ip2 id [] st.ipConnections) ip2).map List.length).getD 0 = _
    rw [alookup_amodify_self]
    cases hl : alookup st.ipConnections ip2 <;> simp [hl]
  · rw [getConnectionCount, getConnectionCount]
    show ((alookup (amodify ip2 id [] st.ipConnections) ip).map List.length).getD 0 = _
    rw [alookup_amodify_ne _ _ _ _ _ h]

theorem register_push_lookup (st : RLState) (c ip2 : Nat) :
    alookup (amodify ip2 (fun l => l ++ [c]) [c]
      (amodify ip2 id [] st.ipConnections)) ip2 =
    some (((alookup st.ipConnections ip2).getD []) ++ [c]) := by
  rw [alookup_amodify_self, alookup_amodify_self]
  cases hl : alookup st.ipConnections ip2 <;> simp

theorem unregisterClient_ipConnections (st : RLState) (c ip2 : Nat) :
    (unregisterClient st c ip2).ipConnections =
      match alookup st.ipConnections ip2 with
      | none => st.ipConnections
      | some l =>
        if l.filter (fun id => id ≠ c) = [] then aremove ip2 st.ipConnections
        else aupdate ip2 (l.filter (fun id => id ≠ c)) st.ipConnections := rfl

theorem rl_count_invariant (cfg : FloodConfig) :
    ∀ (st : RLState), RLReachable cfg st →
      ∀ ip, getConnectionCount st ip ≤ cfg.max_connections_per_ip := by
  intro st h
  induction h with
  | init => intro ip; simp [getConnectionCount, RLState.init]
  | step st' op hst ih =>
    intro ip
    cases op with
    | reg c ip2 =>
      show getConnectionCount (registerClient cfg st' c ip2).2 ip ≤ _
      rw [registerClient_count]
      by_cases hc : cfg.max_connections_per_ip ≤ getConnectionCount st' ip2
      · rw [if_pos hc]
        show getConnectionCount
          { st' with ipConnections := amodify ip2 id [] st'.ipConnections } ip ≤ _
        rw [getConnectionCount_ensure]
        exact ih ip
      · rw [if_neg hc]
        by_cases hip : ip2 = ip
        · subst hip
          show ((alookup (amodify ip2 (fun l => l ++ [c]) [c]
            (amodify ip2 id [] st'.ipConnections)) ip2).map List.length).getD 0 ≤ _
          rw [register_push_lookup]
          have hlen2 : ((some (((alookup st'.ipConnections ip2).getD []) ++ [c])).map
              List.length).getD 0 =
              ((alookup st'.ipConnections ip2).getD []).length + 1 := by simp
          rw [hlen2, getD_length]
          have := ih ip2
          rw [getConnectionCount] at hc this
          omega
        · show ((alookup (amodify ip2 (fun l => l ++ [c]) [c]
            (amodify ip2 id [] st'.ipConnections)) ip).map List.length).getD 0 ≤ _
          rw [alookup_amodify_ne _ _ _ _ _ hip, alookup_amodify_ne _ _ _ _ _ hip]
          exact ih ip
    | unreg c ip2 =>
      show getConnectionCount (unregisterClient st' c ip2) ip ≤ _
      have hip2 := unregisterClient_ipConnections st' c ip2
      cases hl : alookup st'.ipConnections ip2 with
      | none =>
        simp only [hl] at hip2
        have heq : getConnectionCount (unregisterClient st' c ip2) ip =
            getConnectionCount st' ip := by
          rw [getConnectionCount, getConnectionCount, hip2]
        rw [heq]; exact ih ip
      | some l =>
        simp only [hl] at hip2
        by_cases hemp : l.filter (fun id => id ≠ c) = []
        · rw [if_pos hemp] at hip2
          by_cases hip : ip2 = ip
          · subst hip
            rw [getConnectionCount, hip2, alookup_aremove_self]
            simp
          · rw [getConnectionCount, hip2, alookup_aremove_ne _ _ _ hip]
            exact ih ip
        · rw [if_neg hemp] at hip2
          by_cases hip : ip2 = ip
          · subst hip
            rw [getConnectionCount, hip2, alookup_aupdate_self, hl]
            have h4 : (l.filter (fun id => id ≠ c)).length ≤ l.length :=
              List.length_filter_le _ _
            have h5 := ih ip2
            rw [getConnectionCount, hl] at h5
            simp at h4 h5 ⊢
            omega
          · rw [getConnectionCount, hip2, alookup_aupdate_ne _ _ _ _ hip]
            exact ih ip

/-- C8: on every reachable RateLimiter state, `register_client` fails with
the "Too many connections" error exactly when the IP already hosts
`max_connections_per_ip` registered clients; otherwise it succeeds,
creates the client's token bucket and (empty) flood window, and raises the
IP's connection count by one. -/
theorem c8_register_connection_cap (cfg : FloodConfig) (st : RLState)
    (c ip : Nat) (hreach : RLReachable cfg st) :
    ((registerClient cfg st c ip).1 =
        .error (tooManyConnectionsMsg ip cfg.max_connections_per_ip) ↔
      getConnectionCount st ip = cfg.max_connections_per_ip) ∧
    (getConnectionCount st ip ≠ cfg.max_connections_per_ip →
      (registerClient cfg st c ip).1 = .ok () ∧
      alookup (registerClient cfg st c ip).2.clientLimiters c = some () ∧
      alookup (registerClient cfg st c ip).2.messageHistory c = some [] ∧
      getConnectionCount (registerClient cfg st c ip).2 ip =
        getConnectionCount st ip + 1) := by
  have hinv := rl_count_invariant cfg st hreach ip
  rw [registerClient_count]
  by_cases hc : cfg.max_connections_per_ip ≤ getConnectionCount st ip
  · have heq : getConnectionCount st ip = cfg.max_connections_per_ip :=
      le_antisymm hinv hc
    rw [if_pos hc]
    exact ⟨by simp [heq], fun hne => absurd heq hne⟩
  · rw [if_neg hc]
    constructor
    · simp only [iff_iff_implies_and_implies]
      constructor
      · intro h; cases h
      · intro heq; exact absurd (le_of_eq heq.symm) hc
    · intro _
      refine ⟨rfl, by simp, by simp, ?_⟩
      show ((alookup (amodify ip (fun l => l ++ [c]) [c]
        (amodify ip id [] st.ipConnections)) ip).map List.length).getD 0 = _
      rw [alookup_amodify_self, alookup_amodify_self]
      cases hl : alookup st.ipConnections ip <;>
        simp [getConnectionCount, hl]

/-- Witness for C8: with `max_connections_per_ip = 2` and two clients
registered from IP 5, a third registration from IP 5 fails. -/
theorem c8_witness :
    (registerClient ⟨10, 20, 2⟩
      (applyRLOp ⟨10, 20, 2⟩ (applyRLOp ⟨10, 20, 2⟩ RLState.init (.reg 1 5))
        (.reg 2 5)) 3 5).1 =
      .error (tooManyConnectionsMsg 5 2) :=
  (c8_register_connection_cap ⟨10, 20, 2⟩
    (applyRLOp ⟨10, 20, 2⟩ (applyRLOp ⟨10, 20, 2⟩ RLState.init (.reg 1 5))
      (.reg 2 5)) 3 5
    (RLReachable.step _ (.reg 2 5) (RLReachable.step _ (.reg 1 5)
      RLReachable.init))).1.mpr (by decide)

/-- C10: a failed `register_client` call creates no token bucket and no
message-history window for the client (both later `check_rate_limit` and
`check_flood` still answer "Client not registered", the latter leaving the
state untouched) and leaves the IP's connection count as it was. -/
theorem c10_failed_register_no_side_effects (cfg : FloodConfig) (st : RLState)
    (c ip : Nat) (msg : String)
    (hcl : alookup st.clientLimiters c = none)
    (hmh : alookup st.messageHistory c = none)
    (herr : (registerClient cfg st c ip).1 = .error msg) :
    (registerClient cfg st c ip).2.clientLimiters = st.clientLimiters ∧
    (registerClient cfg st c ip).2.messageHistory = st.messageHistory ∧
    getConnectionCount (registerClient cfg st c ip).2 ip =
      getConnectionCount st ip ∧
    (∀ governor : Bool,
      checkRateLimit governor (registerClient cfg st c ip).2 c =
        .error "Client not registered") ∧
    (∀ now : Nat,
      (checkFlood cfg now (registerClient cfg st c ip).2 c).1 =
        .error "Client not registered" ∧
      (checkFlood cfg now (registerClient cfg st c ip).2 c).2 =
        (registerClient cfg st c ip).2) := by
  rw [registerClient_count] at herr ⊢
  by_cases hc : cfg.max_connections_per_ip ≤ getConnectionCount st ip
  · rw [if_pos hc] at herr ⊢
    refine ⟨rfl, rfl, getConnectionCount_ensure st ip ip, ?_, ?_⟩
    · intro governor
      show checkRateLimit governor
        { st with ipConnections := amodify ip id [] st.ipConnections } c = _
      rw [checkRateLimit]
      show (match alookup st.clientLimiters c with
        | some _ => if governor then Except.ok () else Except.error "Rate limit exceeded"
        | none => Except.error "Client not registered") = _
      rw [hcl]
    · intro now
      constructor
      · show (checkFlood cfg now
          { st with ipConnections := amodify ip id [] st.ipConnections } c).1 = _
        rw [checkFlood]
        show (match alookup st.messageHistory c with
          | none => _ | some h => _ : Except String Unit × RLState).1 = _
        rw [hmh]
      · show (checkFlood cfg now
          { st with ipConnections := amodify ip id [] st.ipConnections } c).2 = _
        rw [checkFlood]
        show (match alookup st.messageHistory c with
          | none => _ | some h => _ : Except String Unit × RLState).2 = _
        rw [hmh]
  · rw [if_neg hc] at herr
    cases herr

/-- Witness for C10: with `max_connections_per_ip = 0` every registration
fails and leaves the fresh limiter observationally unchanged. -/
theorem c10_witness :
    (registerClient ⟨10, 20, 0⟩ RLState.init 1 5).2.clientLimiters =
      RLState.init.clientLimiters ∧
    (registerClient ⟨10, 20, 0⟩ RLState.init 1 5).2.messageHistory =
      RLState.init.messageHistory ∧
    getConnectionCount (registerClient ⟨10, 20, 0⟩ RLState.init 1 5).2 5 =
      getConnectionCount RLState.init 5 ∧
    (∀ governor : Bool,
      checkRateLimit governor (registerClient ⟨10, 20, 0⟩ RLState.init 1 5).2 1 =
        .error "Client not registered") ∧
    (∀ now : Nat,
      (checkFlood ⟨10, 20, 0⟩ now (registerClient ⟨10, 20, 0⟩ RLState.init 1 5).2 1).1 =
        .error "Client not registered" ∧
      (checkFlood ⟨10, 20, 0⟩ now (registerClient ⟨10, 20, 0⟩ RLState.init 1 5).2 1).2 =
        (registerClient ⟨10, 20, 0⟩ RLState.init 1 5).2) :=
  c10_failed_register_no_side_effects ⟨10, 20, 0⟩ RLState.init 1 5
    (tooManyConnectionsMsg 5 0) rfl rfl rfl

/-- Witness for C2: the join notice emitted by an `add_client` is on the
fanout and is client-visible. -/
theorem c2_witness :
    isClientVisible
      (MessageEvent.notice
        { timestamp := 0, kind := .joined, nickname := "alice", ip := 1 }) = true :=
  (c2_channel_separation 10 [HubOp.add 1 .red 0 "alice" 1]).1
    (MessageEvent.notice
      { timestamp := 0, kind := .joined, nickname := "alice", ip := 1 })
    (by simp [runHub, applyHubOp, addClient, HubState.init])

/-- Counterexample to C1 as stated: the admission loop consults only three
checks, so a connection from an IP whose AutoBahn `check_connection` would
fail (challenge required) is nevertheless handed to the SSH library; the
fourth check of the claim never runs. -/
theorem c1_counterexample :
    admission 0 [] (Except.ok ()) (Except.ok ()) 7 = AdmissionResult.handed ∧
    (checkConnection exampleAutoBahnConfig 0 c1AutoBahnState 7).1 =
      Except.error (challengeRequiredMsg 3) := by
  constructor
  · decide
  · rfl

end SshChat
